import Mathlib

/-!
Shallow embedding of the Script Library Manager of
`Orange/widgets/data/owpythonscript.py`: the `Script` entity, the
`uniqueify_filename` resolver, the document cache and the collection
operations `addScript` / `removeScript` / `_handleScriptRemoved`, together
with proofs of the specification claims about them.

The filesystem is modelled as a single scripts directory (which may or may
not exist) holding an association list from full path to file content; all
paths touched by the modelled code are of the form
`SCRIPTS_FOLDER_PATH ++ filename` with a plain (separator-free) filename,
so one existence flag for the scripts directory suffices.  Python object
identity (used by `==` on `Script` objects and by dict keying) is modelled
by an explicit `id` field.  Raised exceptions are modelled by `Except` and
`Option` results carrying the partially mutated state where the source
mutates in place before raising.
-/

namespace OWPythonScript

/-- Python constant `SCRIPTS_FOLDER_PATH`, which the source builds by joining
`config.data_dir()` with the literal `python_script_library/`.
`config.data_dir()` lives outside this repository; it is fixed abstractly,
so that `os.path.join(SCRIPTS_FOLDER_PATH, filename)` is string
concatenation (the constant ends in the path separator). -/
def SCRIPTS_FOLDER_PATH : String := "python_script_library/"

/-- Python constant `DEFAULT_FILENAME`, the literal `scratch`. -/
def DEFAULT_FILENAME : String := "scratch"

/-- The scripts directory and its files, keyed by full path. -/
structure FS where
  scriptsDirExists : Bool
  files : List (String × String)
  deriving DecidableEq

def FS.getFile (fs : FS) (path : String) : Option String :=
  fs.files.lookup path

/-- Python `os.path.exists` on a file path inside the scripts directory. -/
def FS.fileExists (fs : FS) (path : String) : Bool :=
  (fs.getFile path).isSome

/-- Python `open(path, mode w)` followed by a write, once the directory is
known to exist. -/
def FS.setFile (fs : FS) (path content : String) : FS :=
  { fs with files := (path, content) :: fs.files.filter (fun pc => pc.1 != path) }

/-- Python `os.remove(path)` once the file is known to exist. -/
def FS.removeFile (fs : FS) (path : String) : FS :=
  { fs with files := fs.files.filter (fun pc => pc.1 != path) }

/-- Python `os.rename(old, new)` once the source is known to exist. -/
def FS.renameFile (fs : FS) (oldPath newPath : String) : FS :=
  match fs.getFile oldPath with
  | some content => (fs.removeFile oldPath).setFile newPath content
  | none => fs

/-- Events published on the `ScriptStateManager` bus. -/
inductive ScriptEvent where
  | saved (filename text : String)
  | removed (filename : String)
  | renamed (oldName newName : String)
  deriving DecidableEq

/-- A `Script` object.  `id` models Python object identity.  `fullname`
starts out as `None` in `__init__` and is assigned by `_save_script` and by
the `filename` setter. -/
structure Script where
  id : Nat
  _script : String
  _filename : String
  fullname : Option String
  flags : Nat
  deriving DecidableEq

def Script.Modified : Nat := 1

def Script.MissingFromFilesystem : Nat := 2

/-- Method `Script._save_script`: assigns `self.fullname`, then opens the file for
writing.  `open` raises `OSError` when the scripts directory is absent; the
raise happens after `fullname` was assigned, so the error value carries the
partially updated script.  On success the write happens and
`flags &= ~(Modified | MissingFromFilesystem)` clears the two low bits,
which for a natural number is `flags - flags % 4`. -/
def Script._save_script (s : Script) (fs : FS) : Except (Script × FS) (Script × FS) :=
  let full := SCRIPTS_FOLDER_PATH ++ s._filename
  let s1 := { s with fullname := some full }
  if fs.scriptsDirExists then
    .ok ({ s1 with flags := s1.flags - s1.flags % 4 }, fs.setFile full s._script)
  else
    .error (s1, fs)

/-- Constructor `Script.__init__(self, script, filename, flags=2)`: saves immediately
unless the `MissingFromFilesystem` bit is set in `flags`. -/
def Script.init (id : Nat) (script filename : String) (flags : Nat) (fs : FS) :
    Except (Script × FS) (Script × FS) :=
  let s : Script :=
    { id := id, _script := script, _filename := filename, fullname := none, flags := flags }
  if flags &&& Script.MissingFromFilesystem = 0 then s._save_script fs else .ok (s, fs)

/-- The `script` property setter: assigns `self._script` and then calls
`_save_script` unconditionally. -/
def Script.setScript (s : Script) (text : String) (fs : FS) :
    Except (Script × FS) (Script × FS) :=
  Script._save_script { s with _script := text } fs

/-- The `filename` property setter.  No-op when unchanged; when the
`MissingFromFilesystem` bit is set only the in-memory name changes; else
`fullname` is reassigned and, when the old full path exists on disk, the
file is renamed and a `renamed` event is emitted.  `os.path.exists(None)`
raises `TypeError`, modelled by `Except.error`. -/
def Script.setFilename (s : Script) (filename : String) (fs : FS) :
    Except Unit (Script × FS × List ScriptEvent) :=
  if s._filename = filename then .ok (s, fs, [])
  else
    let old_filename := s._filename
    let s1 := { s with _filename := filename }
    if s1.flags &&& Script.MissingFromFilesystem ≠ 0 then .ok (s1, fs, [])
    else
      match s1.fullname with
      | none => .error ()
      | some old_fullname =>
        let s2 := { s1 with fullname := some (SCRIPTS_FOLDER_PATH ++ filename) }
        if fs.fileExists old_fullname then
          .ok (s2, fs.renameFile old_fullname (SCRIPTS_FOLDER_PATH ++ filename),
               [ScriptEvent.renamed old_filename filename])
        else
          .ok (s2, fs, [])

/-- Method `Script.reload`: when `fullname` does not exist, assigns
`flags = MissingFromFilesystem` wholesale and returns `False`; otherwise
re-reads the content and returns `True`.  `os.path.exists(None)` raises
`TypeError`, modelled by `none`. -/
def Script.reload (s : Script) (fs : FS) : Option (Script × Bool) :=
  match s.fullname with
  | none => none
  | some full =>
    match fs.getFile full with
    | none => some ({ s with flags := Script.MissingFromFilesystem }, false)
    | some content => some ({ s with _script := content }, true)

/-- Method `Script.refresh(new_script, set_modified=True)`.  Here `flags &= ~Modified`
clears the low bit, which for a natural number is `flags - flags % 2`. -/
def Script.refresh (s : Script) (new_script : String) (set_modified : Bool) : Script :=
  if s._script ≠ new_script then
    let s1 := if set_modified then { s with flags := s.flags ||| Script.Modified } else s
    { s1 with _script := new_script }
  else
    { s with flags := s.flags - s.flags % 2 }

/-- Python `filename.endswith(".py")`, on the underlying character list. -/
def py_endswith (s suffix : String) : Bool :=
  List.isSuffixOf suffix.data s.data

/-- Python `filename[:-3]`, on the underlying character list. -/
def py_dropRight3 (s : String) : String :=
  List.asString (s.data.take (s.data.length - 3))

/-- The candidate name built by the `uniqueify_filename` loop: the template
applied to an underscore plus `str(i)`, with `.py` appended. -/
def uniqueify_candidate (stem : String) (i : Nat) : String :=
  stem ++ "_" ++ Nat.repr i ++ ".py"

/-- The `while True` loop of `uniqueify_filename`, made structurally
recursive on explicit fuel; `none` means the fuel ran out, which
`uniqueify_loop_total` below shows never happens for the fuel supplied by
`uniqueify_filename`. -/
def uniqueify_loop (script_names : List String) (stem : String) : Nat → Nat → Option String
  | _, 0 => none
  | i, fuel + 1 =>
    let name := uniqueify_candidate stem i
    if name ∈ script_names then uniqueify_loop script_names stem (i + 1) fuel else some name

/-- The `script_names` list built by `uniqueify_filename`: filenames of all
scripts in the model except the one identical (`==` on Python objects, here
the `id` field) to `curr_script`.  `curr_script` is `none` when the caller
passed `-1` or `None`, which equals no script. -/
def script_names_excluding (model : List Script) (curr_script : Option Nat) : List String :=
  (model.filter (fun s => curr_script ≠ some s.id)).map Script._filename

/-- Function `uniqueify_filename(model, curr_script, filename)`: strips a trailing
`.py`, substitutes `DEFAULT_FILENAME` for an empty stem, and tries the bare
stem, then the stem suffixed with `_2`, `_3`, ... (each with `.py`
re-appended) until the name collides with no other filename of the
collection. -/
def uniqueify_filename (model : List Script) (curr_script : Option Nat) (filename : String) :
    Option String :=
  let script_names := script_names_excluding model curr_script
  let stem0 := if py_endswith filename ".py" then py_dropRight3 filename else filename
  let stem := if stem0 = "" then DEFAULT_FILENAME else stem0
  let name := stem ++ ".py"
  if name ∈ script_names then
    uniqueify_loop script_names stem 2 (script_names.length + 1)
  else
    some name

/-- A `QTextDocument` in the document cache; `id` models Qt object
identity, `text` the `setPlainText(script.script)` initial content. -/
structure Doc where
  id : Nat
  text : String
  deriving DecidableEq

/-- The widget state the claims touch: the library list model, the document
cache `_cachedDocuments` keyed by Script object identity, the editor text,
the selected row, and counters producing fresh object identities. -/
structure Widget where
  libraryList : List Script
  cachedDocuments : List (Nat × Doc)
  editorText : String
  selectedRow : Nat
  nextScriptId : Nat
  nextDocId : Nat
  deriving DecidableEq

/-- Method `OWPythonScript.documentForScript(script)` for a `Script` argument:
returns the cached document when one exists for that exact object identity,
else constructs one, caches it and returns it. -/
def documentForScript (w : Widget) (script : Script) : Widget × Doc :=
  match w.cachedDocuments.lookup script.id with
  | some doc => (w, doc)
  | none =>
    let doc : Doc := { id := w.nextDocId, text := script._script }
    ({ w with
        cachedDocuments := (script.id, doc) :: w.cachedDocuments,
        nextDocId := w.nextDocId + 1 },
     doc)

/-- Method `OWPythonScript.addScript(text=None, filename=DEFAULT_FILENAME)`:
`text=None` means the current editor text; the filename is resolved by
`uniqueify_filename(model, -1, filename)` and the script is constructed with
the constructor default `flags=2` (`MissingFromFilesystem`), so no file is
written.  `none` marks the unreachable fuel-exhaustion of the resolver. -/
def addScript (w : Widget) (text : Option String) (filename : String) (fs : FS) :
    Option (Widget × FS) :=
  let text := text.getD w.editorText
  match uniqueify_filename w.libraryList none filename with
  | none => none
  | some fname =>
    match Script.init w.nextScriptId text fname 2 fs with
    | .ok (script, fs1) =>
      some ({ w with
                libraryList := w.libraryList ++ [script],
                nextScriptId := w.nextScriptId + 1 },
            fs1)
    | .error _ => none

/-- Outcome of `OWPythonScript.removeScript`: either the method ran to
completion, or `os.remove` raised `FileNotFoundError` (file already absent
while the script was not flagged missing), leaving the entity already
deleted from the list and the rest of the method unexecuted. -/
inductive RemoveResult where
  | ok (w : Widget) (fs : FS) (events : List ScriptEvent)
  | raised (w : Widget) (fs : FS) (events : List ScriptEvent)
  deriving DecidableEq

/-- The tail of `removeScript` after the optional file delete: auto-create
a fresh script when the list became empty, then
`select_row(view, max(index - 1, 0))`. -/
def removeScript_finish (w : Widget) (fs : FS) (events : List ScriptEvent) (index : Nat) :
    Option RemoveResult :=
  if w.libraryList.length = 0 then
    match addScript w none DEFAULT_FILENAME fs with
    | none => none
    | some (w1, fs1) => some (.ok { w1 with selectedRow := max (index - 1) 0 } fs1 events)
  else
    some (.ok { w with selectedRow := max (index - 1) 0 } fs events)

/-- Method `OWPythonScript.removeScript(index)`.  The entity is deleted from the
list first; when it is not flagged missing its backing file is removed
(raising when already absent) and a `removed` event is emitted with the
own handler of the widget disconnected.  `none` marks an out-of-range index
(`IndexError`). -/
def removeScript (w : Widget) (fs : FS) (index : Nat) : Option RemoveResult :=
  match w.libraryList[index]? with
  | none => none
  | some script =>
    if script.flags &&& Script.MissingFromFilesystem = 0 then
      if fs.fileExists (SCRIPTS_FOLDER_PATH ++ script._filename) then
        removeScript_finish { w with libraryList := w.libraryList.eraseIdx index }
          (fs.removeFile (SCRIPTS_FOLDER_PATH ++ script._filename))
          [ScriptEvent.removed script._filename] index
      else
        some (.raised { w with libraryList := w.libraryList.eraseIdx index } fs [])
    else
      removeScript_finish { w with libraryList := w.libraryList.eraseIdx index } fs [] index

/-- Python `list.remove(x)` for object identity: drop the first entry whose
identity matches. -/
def removeFirstById (l : List Script) (i : Nat) : List Script :=
  match l with
  | [] => []
  | s :: rest => if s.id = i then rest else s :: removeFirstById rest i

/-- In-place `script.flags |= MissingFromFilesystem` on the object with the
given identity, as seen by the list holding it. -/
def markMissingById (l : List Script) (i : Nat) : List Script :=
  l.map fun s =>
    if s.id = i then { s with flags := s.flags ||| Script.MissingFromFilesystem } else s

/-- Handler `OWPythonScript._handleScriptRemoved(filename)`: the first script with
that filename (a `StopIteration` propagates when there is none, modelled by
`none`) is flagged missing when it has a cached document, else dropped from
the list; when the list thereby empties, a fresh script is added and row 0
selected. -/
def _handleScriptRemoved (w : Widget) (fs : FS) (filename : String) :
    Option (Widget × FS) :=
  match w.libraryList.find? (fun s => s._filename = filename) with
  | none => none
  | some script =>
    if (w.cachedDocuments.lookup script.id).isSome then
      some ({ w with libraryList := markMissingById w.libraryList script.id }, fs)
    else
      let w1 := { w with libraryList := removeFirstById w.libraryList script.id }
      if w1.libraryList.length = 0 then
        match addScript w1 none DEFAULT_FILENAME fs with
        | none => none
        | some (w2, fs1) => some ({ w2 with selectedRow := 0 }, fs1)
      else
        some (w1, fs)

/-- Decimal read-back of a digit string, used to invert `Nat.repr`. -/
def reprVal (l : List Char) : Nat :=
  l.foldl (fun acc c => acc * 10 + (c.toNat - Char.toNat (Char.ofNat 48))) 0

theorem digitChar_val {n : Nat} (h : n < 10) :
    (Nat.digitChar n).toNat - Char.toNat (Char.ofNat 48) = n := by
  interval_cases n <;> decide

theorem toDigitsCore_acc (fuel n : Nat) (ds : List Char) :
    Nat.toDigitsCore 10 fuel n ds = Nat.toDigitsCore 10 fuel n [] ++ ds := by
  induction fuel generalizing n ds with
  | zero =>
    rw [Nat.toDigitsCore.eq_def, Nat.toDigitsCore.eq_def]
    rfl
  | succ fuel ih =>
    rw [Nat.toDigitsCore.eq_def]
    conv_rhs => rw [Nat.toDigitsCore.eq_def]
    dsimp only
    split
    · simp
    · rw [ih (n / 10) ((n % 10).digitChar :: ds), ih (n / 10) [(n % 10).digitChar]]
      simp

theorem toDigitsCore_fuel {fuel1 fuel2 n : Nat} (ds : List Char)
    (h1 : n < fuel1) (h2 : n < fuel2) :
    Nat.toDigitsCore 10 fuel1 n ds = Nat.toDigitsCore 10 fuel2 n ds := by
  induction n using Nat.strong_induction_on generalizing fuel1 fuel2 ds with
  | _ n ih =>
    match fuel1, fuel2 with
    | f1 + 1, f2 + 1 =>
      rw [Nat.toDigitsCore.eq_def]
      conv_rhs => rw [Nat.toDigitsCore.eq_def]
      dsimp only
      split
      · rfl
      · rename_i hne
        exact ih (n / 10) (by omega) _ (by omega) (by omega)

theorem reprVal_toDigits (n : Nat) :
    reprVal (Nat.toDigitsCore 10 (n + 1) n []) = n := by
  induction n using Nat.strong_induction_on with
  | _ n ih =>
    rw [Nat.toDigitsCore.eq_def]
    dsimp only
    split
    · rename_i hz
      simp only [reprVal, List.foldl]
      rw [digitChar_val (Nat.mod_lt _ (by omega))]
      omega
    · rename_i hne
      rw [toDigitsCore_acc]
      rw [toDigitsCore_fuel [] (show n / 10 < n by omega) (Nat.lt_succ_self _)]
      simp only [reprVal] at ih ⊢
      rw [List.foldl_append, ih (n / 10) (by omega)]
      simp only [List.foldl]
      rw [digitChar_val (Nat.mod_lt _ (by omega))]
      omega

/-- Decimal `Nat.repr` is injective: distinct loop counters give distinct
candidate suffixes. -/
theorem repr_injective : Function.Injective Nat.repr := by
  intro a b h
  have hd : Nat.toDigits 10 a = Nat.toDigits 10 b := congrArg String.data h
  have ha := reprVal_toDigits a
  have hb := reprVal_toDigits b
  have hda : Nat.toDigits 10 a = Nat.toDigitsCore 10 (a + 1) a [] := rfl
  have hdb : Nat.toDigits 10 b = Nat.toDigitsCore 10 (b + 1) b [] := rfl
  rw [hda, hdb] at hd
  rw [hd] at ha
  omega

theorem uniqueify_candidate_inj (stem : String) :
    Function.Injective (uniqueify_candidate stem) := by
  intro i j h
  apply repr_injective
  apply String.ext
  have hd := congrArg String.data h
  simp only [uniqueify_candidate, String.data_append] at hd
  have h1 := List.append_cancel_right hd
  exact List.append_cancel_left h1

/-- A name the loop returns is free of collisions and is a suffixed
candidate. -/
theorem uniqueify_loop_some (script_names : List String) (stem : String) :
    ∀ fuel i name, uniqueify_loop script_names stem i fuel = some name →
      name ∉ script_names ∧ ∃ j, i ≤ j ∧ name = uniqueify_candidate stem j := by
  intro fuel
  induction fuel with
  | zero => intro i name h; simp [uniqueify_loop] at h
  | succ fuel ih =>
    intro i name h
    simp only [uniqueify_loop] at h
    split at h
    · obtain ⟨h1, j, hj, hn⟩ := ih (i + 1) name h
      exact ⟨h1, j, by omega, hn⟩
    · rename_i hmem
      cases h
      exact ⟨hmem, i, le_refl i, rfl⟩

theorem uniqueify_loop_none (script_names : List String) (stem : String) :
    ∀ fuel i, uniqueify_loop script_names stem i fuel = none →
      ∀ j, i ≤ j → j < i + fuel → uniqueify_candidate stem j ∈ script_names := by
  intro fuel
  induction fuel with
  | zero => intro i h j h1 h2; omega
  | succ fuel ih =>
    intro i h j h1 h2
    simp only [uniqueify_loop] at h
    split at h
    · rename_i hmem
      rcases Nat.eq_or_lt_of_le h1 with rfl | hlt
      · exact hmem
      · exact ih (i + 1) h j hlt (by omega)
    · cases h

/-- Pigeonhole: with fuel one more than the number of known names the loop
cannot run out, since its candidates are pairwise distinct. -/
theorem uniqueify_loop_total (script_names : List String) (stem : String) (i : Nat) :
    uniqueify_loop script_names stem i (script_names.length + 1) ≠ none := by
  intro h
  have hall := uniqueify_loop_none script_names stem (script_names.length + 1) i h
  set cands := (List.range' i (script_names.length + 1)).map (uniqueify_candidate stem) with hc
  have hnodup : cands.Nodup :=
    (List.nodup_range' i (script_names.length + 1)).map (uniqueify_candidate_inj stem)
  have hsub : cands.toFinset ⊆ script_names.toFinset := by
    intro x hx
    rw [List.mem_toFinset] at hx ⊢
    rw [hc, List.mem_map] at hx
    obtain ⟨j, hj, rfl⟩ := hx
    rw [List.mem_range'] at hj
    exact hall j (by omega) (by omega)
  have h1 : cands.toFinset.card = script_names.length + 1 := by
    rw [List.toFinset_card_of_nodup hnodup, hc, List.length_map, List.length_range']
  have h2 := Finset.card_le_card hsub
  have h3 := List.toFinset_card_le script_names
  omega

/-- The branch on the unsuffixed candidate followed by the loop always
yields a collision-free name. -/
theorem uniqueify_core_spec (names : List String) (stem : String) :
    ∃ name,
      (if stem ++ ".py" ∈ names then uniqueify_loop names stem 2 (names.length + 1)
       else some (stem ++ ".py")) = some name ∧ name ∉ names := by
  by_cases h : stem ++ ".py" ∈ names
  · rw [if_pos h]
    rcases hres : uniqueify_loop names stem 2 (names.length + 1) with _ | name
    · exact absurd hres (uniqueify_loop_total _ _ 2)
    · exact ⟨name, rfl, (uniqueify_loop_some _ _ _ _ _ hres).1⟩
  · exact ⟨_, if_neg h, h⟩

/-- The resolver always yields a name, and that name collides with no
filename in `script_names_excluding model curr_script`. -/
theorem uniqueify_filename_spec (model : List Script) (curr_script : Option Nat)
    (filename : String) :
    ∃ name, uniqueify_filename model curr_script filename = some name ∧
      name ∉ script_names_excluding model curr_script := by
  have h := uniqueify_core_spec (script_names_excluding model curr_script)
      (if (if py_endswith filename ".py" then py_dropRight3 filename else filename) = ""
       then DEFAULT_FILENAME
       else if py_endswith filename ".py" then py_dropRight3 filename else filename)
  simpa [uniqueify_filename] using h

theorem mul_four_and_two (k : Nat) : 4 * k &&& 2 = 0 := by
  have h := Nat.and_two_pow (4 * k) 1
  rw [Nat.testBit_to_div_mod] at h
  have h2 : 4 * k / 2 ^ 1 % 2 = 0 := by omega
  rw [h2] at h
  simpa using h

theorem mul_four_and_one (k : Nat) : 4 * k &&& 1 = 0 := by
  rw [Nat.and_one_is_mod]
  omega

/-- Python `flags |= MissingFromFilesystem` sets the missing bit. -/
theorem or_two_and_two (f : Nat) : (f ||| 2) &&& 2 = 2 := by
  have h := Nat.and_two_pow (f ||| 2) 1
  rw [Nat.testBit_or] at h
  have h2 : Nat.testBit 2 1 = true := by decide
  rw [h2, Bool.or_true] at h
  simpa using h

/-- Python `flags &= ~(Modified | MissingFromFilesystem)` clears the missing bit. -/
theorem cleared_and_two (f : Nat) : (f - f % 4) &&& 2 = 0 := by
  have h : f - f % 4 = 4 * (f / 4) := by omega
  rw [h]
  exact mul_four_and_two (f / 4)

/-- Python `flags &= ~(Modified | MissingFromFilesystem)` clears the modified bit. -/
theorem cleared_and_one (f : Nat) : (f - f % 4) &&& 1 = 0 := by
  have h : f - f % 4 = 4 * (f / 4) := by omega
  rw [h]
  exact mul_four_and_one (f / 4)

theorem lookup_filter_ne (path : String) (files : List (String × String)) :
    List.lookup path (files.filter (fun pc => pc.1 != path)) = none := by
  induction files with
  | nil => rfl
  | cons hd tl ih =>
    obtain ⟨k, v⟩ := hd
    by_cases h : k = path
    · simp [List.filter_cons, h, ih]
    · have hbe : (path == k) = false := beq_eq_false_iff_ne.mpr (Ne.symm h)
      simp [List.filter_cons, bne_iff_ne, h, List.lookup, hbe, ih]

/-- Reading back the file just written. -/
theorem FS.getFile_setFile (fs : FS) (path content : String) :
    (fs.setFile path content).getFile path = some content := by
  simp [FS.setFile, FS.getFile, List.lookup_cons]

/-- A deleted file is gone. -/
theorem FS.getFile_removeFile (fs : FS) (path : String) :
    (fs.removeFile path).getFile path = none := by
  simp only [FS.removeFile, FS.getFile]
  exact lookup_filter_ne path fs.files

/-- C1: for every collection, excluded entity and candidate filename,
`uniqueify_filename` returns a name that equals no other listed filename;
it is a pure function of its three arguments (no hidden state), so the same
inputs always produce the same output. -/
theorem uniqueify_filename_no_collision (model : List Script) (curr_script : Option Nat)
    (filename : String) :
    ∃ name, uniqueify_filename model curr_script filename = some name ∧
      ∀ s ∈ model, curr_script ≠ some s.id → name ≠ s._filename := by
  obtain ⟨name, hres, hnot⟩ := uniqueify_filename_spec model curr_script filename
  refine ⟨name, hres, ?_⟩
  intro s hs hex heq
  apply hnot
  unfold script_names_excluding
  exact List.mem_map.mpr ⟨s, List.mem_filter.mpr ⟨hs, by simpa using hex⟩, heq.symm⟩

/-- C1 witness: the scenario collection `a.py`, `b.py` of the spec with
candidate `"a"`. -/
theorem uniqueify_filename_no_collision_witness :
    ∃ name,
      uniqueify_filename [⟨0, "", "a.py", none, 0⟩, ⟨1, "", "b.py", none, 0⟩] none "a" =
        some name ∧
      ∀ s ∈ [(⟨0, "", "a.py", none, 0⟩ : Script), ⟨1, "", "b.py", none, 0⟩],
        (none : Option Nat) ≠ some s.id → name ≠ s._filename :=
  uniqueify_filename_no_collision _ _ _

/-- C5 counterexample: a candidate with the non-canonical extension
`.txt` does not have it stripped; the resolver yields `notes.txt.py`,
not `notes.py`. -/
theorem uniqueify_filename_txt_cex :
    uniqueify_filename [] none "notes.txt" = some "notes.txt.py" ∧
    ("notes.txt.py" : String) ≠ "notes.py" :=
  ⟨rfl, by decide⟩

/-- C5 (amended): only a trailing canonical `.py` extension is stripped
from the candidate; any other extension stays part of the stem, so the
result is the whole candidate (or, on collision, the whole candidate with a
`_i` suffix, `i ≥ 2`) with `.py` appended. -/
theorem uniqueify_filename_keeps_noncanonical_extension (model : List Script)
    (curr_script : Option Nat) (filename : String)
    (h : py_endswith filename ".py" = false) (h2 : filename ≠ "") :
    ∃ name, uniqueify_filename model curr_script filename = some name ∧
      (name = filename ++ ".py" ∨
        ∃ j, 2 ≤ j ∧ name = filename ++ "_" ++ Nat.repr j ++ ".py") := by
  by_cases hmem : filename ++ ".py" ∈ script_names_excluding model curr_script
  · rcases hres : uniqueify_loop (script_names_excluding model curr_script) filename 2
        ((script_names_excluding model curr_script).length + 1) with _ | name
    · exact absurd hres (uniqueify_loop_total _ _ 2)
    · obtain ⟨hnot, j, hj, hn⟩ := uniqueify_loop_some _ _ _ _ _ hres
      refine ⟨name, ?_, Or.inr ⟨j, hj, by simpa [uniqueify_candidate] using hn⟩⟩
      unfold uniqueify_filename
      simp [h, h2, hmem, hres]
  · refine ⟨filename ++ ".py", ?_, Or.inl rfl⟩
    unfold uniqueify_filename
    simp [h, h2, hmem]

/-- C5 witness: `notes.txt` resolves against the empty collection. -/
theorem uniqueify_filename_keeps_noncanonical_extension_witness :
    py_endswith "notes.txt" ".py" = false ∧ ("notes.txt" : String) ≠ "" ∧
    (∃ name, uniqueify_filename [] none "notes.txt" = some name ∧
      (name = "notes.txt" ++ ".py" ∨
        ∃ j, 2 ≤ j ∧ name = "notes.txt" ++ "_" ++ Nat.repr j ++ ".py")) :=
  ⟨rfl, by decide,
    uniqueify_filename_keeps_noncanonical_extension [] none "notes.txt" rfl (by decide)⟩

/-- C2 counterexample: setting the content of a script whose
`MissingFromFilesystem` flag is set does perform a filesystem write — the
`script` setter calls `_save_script` unconditionally, recreating the file
and clearing the flag. -/
theorem setScript_missing_writes_cex :
    Script.setScript ⟨0, "old", "a.py", none, Script.MissingFromFilesystem⟩ "x" ⟨true, []⟩ =
      .ok (⟨0, "x", "a.py", some "python_script_library/a.py", 0⟩,
           ⟨true, [("python_script_library/a.py", "x")]⟩) ∧
    (⟨true, [("python_script_library/a.py", "x")]⟩ : FS).files ≠ (⟨true, []⟩ : FS).files :=
  ⟨rfl, by decide⟩

/-- C2 (amended): setting the content always calls `_save_script`,
regardless of the missing flag: when the scripts directory exists the file
is written with the new content (recreating it for a missing script) and
both `Modified` and `MissingFromFilesystem` flags are cleared. -/
theorem setScript_missing_still_writes (s : Script) (text : String) (fs : FS)
    (hdir : fs.scriptsDirExists = true)
    (hmiss : s.flags &&& Script.MissingFromFilesystem ≠ 0) :
    ∃ s1 fs1, Script.setScript s text fs = .ok (s1, fs1) ∧
      fs1.getFile (SCRIPTS_FOLDER_PATH ++ s._filename) = some text ∧
      s1._script = text ∧
      s1.flags &&& Script.MissingFromFilesystem = 0 ∧
      s1.flags &&& Script.Modified = 0 := by
  unfold Script.setScript Script._save_script
  simp only [hdir, if_true]
  exact ⟨_, _, rfl, FS.getFile_setFile fs _ text, rfl, cleared_and_two _, cleared_and_one _⟩

/-- C2 witness: a concrete missing script, existing directory. -/
theorem setScript_missing_still_writes_witness :
    (⟨true, []⟩ : FS).scriptsDirExists = true ∧
    (⟨0, "old", "a.py", none, 2⟩ : Script).flags &&& Script.MissingFromFilesystem ≠ 0 ∧
    (∃ s1 fs1,
      Script.setScript ⟨0, "old", "a.py", none, 2⟩ "x" ⟨true, []⟩ = .ok (s1, fs1) ∧
      fs1.getFile (SCRIPTS_FOLDER_PATH ++ "a.py") = some "x" ∧
      s1._script = "x" ∧
      s1.flags &&& Script.MissingFromFilesystem = 0 ∧
      s1.flags &&& Script.Modified = 0) :=
  ⟨rfl, by decide, setScript_missing_still_writes _ _ _ rfl (by decide)⟩

/-- C3 counterexample: setting the content of a non-missing script while
the scripts directory is absent raises (`Except.error`), and the flags of
the script are unchanged — it is not put into a missing state. -/
theorem setScript_no_dir_raises_cex :
    Script.setScript ⟨0, "c", "a.py", some "python_script_library/a.py", 0⟩ "x" ⟨false, []⟩ =
      .error (⟨0, "x", "a.py", some "python_script_library/a.py", 0⟩, ⟨false, []⟩) ∧
    (⟨0, "x", "a.py", some "python_script_library/a.py", 0⟩ : Script).flags &&&
        Script.MissingFromFilesystem = 0 :=
  ⟨rfl, rfl⟩

/-- C3 (amended): when the directory of the write target is absent, setting the
content raises an `OSError` to the caller (`open` is not guarded): the
operation does not fail silently and does not set the missing flag — the
script keeps its flags, with only `_script` and `fullname` reassigned
before the raise. -/
theorem setScript_no_dir_raises (s : Script) (text : String) (fs : FS)
    (hdir : fs.scriptsDirExists = false) :
    ∃ s1, Script.setScript s text fs = .error (s1, fs) ∧
      s1.flags = s.flags ∧
      s1.flags &&& Script.MissingFromFilesystem = s.flags &&& Script.MissingFromFilesystem ∧
      s1._script = text ∧
      s1.fullname = some (SCRIPTS_FOLDER_PATH ++ s._filename) := by
  unfold Script.setScript Script._save_script
  simp only [hdir, Bool.false_eq_true, if_false]
  exact ⟨_, rfl, rfl, rfl, rfl, rfl⟩

/-- C3 witness: a concrete non-missing script, absent directory. -/
theorem setScript_no_dir_raises_witness :
    (⟨false, []⟩ : FS).scriptsDirExists = false ∧
    (∃ s1,
      Script.setScript ⟨1, "c", "b.py", some "python_script_library/b.py", 0⟩ "y" ⟨false, []⟩ =
        .error (s1, ⟨false, []⟩) ∧
      s1.flags = (⟨1, "c", "b.py", some "python_script_library/b.py", 0⟩ : Script).flags ∧
      s1.flags &&& Script.MissingFromFilesystem =
        (⟨1, "c", "b.py", some "python_script_library/b.py", 0⟩ : Script).flags &&&
          Script.MissingFromFilesystem ∧
      s1._script = "y" ∧
      s1.fullname = some (SCRIPTS_FOLDER_PATH ++ "b.py")) :=
  ⟨rfl, setScript_no_dir_raises _ _ _ rfl⟩

/-- C4 counterexample: renaming a non-missing script whose backing file is
absent on disk raises no error at all — the setter returns normally, with
no rename performed and no Renamed event published. -/
theorem setFilename_absent_source_cex :
    Script.setFilename ⟨0, "c", "a.py", some "python_script_library/a.py", 0⟩ "b.py"
        ⟨true, []⟩ =
      .ok (⟨0, "c", "b.py", some "python_script_library/b.py", 0⟩, ⟨true, []⟩, []) :=
  rfl

/-- C4 (amended): setting a different filename on a non-missing script
renames the backing file and publishes a Renamed event only when the source
file exists on disk; when the source file does not exist, the setter fails
silently instead of raising — no rename, no event, only the in-memory
`filename` and `fullname` updated. -/
theorem setFilename_renames_only_existing (s : Script) (newName : String) (fs : FS)
    (p : String)
    (hne : s._filename ≠ newName)
    (hmiss : s.flags &&& Script.MissingFromFilesystem = 0)
    (hfull : s.fullname = some p) :
    (fs.fileExists p = true →
      Script.setFilename s newName fs =
        .ok ({ s with _filename := newName,
                      fullname := some (SCRIPTS_FOLDER_PATH ++ newName) },
             fs.renameFile p (SCRIPTS_FOLDER_PATH ++ newName),
             [ScriptEvent.renamed s._filename newName])) ∧
    (fs.fileExists p = false →
      Script.setFilename s newName fs =
        .ok ({ s with _filename := newName,
                      fullname := some (SCRIPTS_FOLDER_PATH ++ newName) },
             fs, [])) := by
  unfold Script.setFilename
  constructor <;> intro hex <;> simp [hne, hmiss, hfull, hex]

/-- C4 witness: a concrete non-missing script whose backing file exists. -/
theorem setFilename_renames_only_existing_witness :
    (⟨0, "c", "a.py", some "python_script_library/a.py", 0⟩ : Script)._filename ≠ "b.py" ∧
    (⟨0, "c", "a.py", some "python_script_library/a.py", 0⟩ : Script).flags &&&
        Script.MissingFromFilesystem = 0 ∧
    (((⟨true, [("python_script_library/a.py", "c")]⟩ : FS).fileExists
          "python_script_library/a.py" = true →
      Script.setFilename ⟨0, "c", "a.py", some "python_script_library/a.py", 0⟩ "b.py"
          ⟨true, [("python_script_library/a.py", "c")]⟩ =
        .ok (⟨0, "c", "b.py", some "python_script_library/b.py", 0⟩,
             FS.renameFile ⟨true, [("python_script_library/a.py", "c")]⟩
               "python_script_library/a.py" "python_script_library/b.py",
             [ScriptEvent.renamed "a.py" "b.py"])) ∧
    ((⟨true, [("python_script_library/a.py", "c")]⟩ : FS).fileExists
          "python_script_library/a.py" = false →
      Script.setFilename ⟨0, "c", "a.py", some "python_script_library/a.py", 0⟩ "b.py"
          ⟨true, [("python_script_library/a.py", "c")]⟩ =
        .ok (⟨0, "c", "b.py", some "python_script_library/b.py", 0⟩,
             ⟨true, [("python_script_library/a.py", "c")]⟩, []))) :=
  ⟨by decide, rfl,
    setFilename_renames_only_existing _ "b.py" _ _ (by decide) rfl rfl⟩

/-- C8: when the backing file is absent, `reload` returns `False`, sets the
`MissingFromFilesystem` flag, and leaves the in-memory content (and every
other field) unchanged. -/
theorem reload_absent_file_fails (s : Script) (fs : FS) (p : String)
    (hfull : s.fullname = some p) (habs : fs.getFile p = none) :
    Script.reload s fs = some ({ s with flags := Script.MissingFromFilesystem }, false) := by
  simp [Script.reload, hfull, habs]

/-- C8 witness, running the scenario of the spec: a script saved with content
`"1"`, then `setContent("2")`, then the file deleted externally; `reload`
fails, flags become missing, content stays `"2"`. -/
theorem reload_absent_file_fails_witness :
    Script.init 0 "1" "x.py" 0 ⟨true, []⟩ =
      .ok (⟨0, "1", "x.py", some "python_script_library/x.py", 0⟩,
           ⟨true, [("python_script_library/x.py", "1")]⟩) ∧
    Script.setScript ⟨0, "1", "x.py", some "python_script_library/x.py", 0⟩ "2"
        ⟨true, [("python_script_library/x.py", "1")]⟩ =
      .ok (⟨0, "2", "x.py", some "python_script_library/x.py", 0⟩,
           ⟨true, [("python_script_library/x.py", "2")]⟩) ∧
    FS.getFile ⟨true, []⟩ "python_script_library/x.py" = none ∧
    Script.reload ⟨0, "2", "x.py", some "python_script_library/x.py", 0⟩ ⟨true, []⟩ =
      some (⟨0, "2", "x.py", some "python_script_library/x.py", 2⟩, false) :=
  ⟨rfl, rfl, rfl, reload_absent_file_fails _ _ "python_script_library/x.py" rfl rfl⟩

/-- C9: `documentForScript` called twice for the same script returns the
identical cached document (and the second call changes nothing): the second
call finds the entry the first call cached. -/
theorem documentForScript_twice_same (w : Widget) (script : Script) :
    (documentForScript (documentForScript w script).1 script).2 =
      (documentForScript w script).2 ∧
    (documentForScript (documentForScript w script).1 script).1 =
      (documentForScript w script).1 := by
  unfold documentForScript
  rcases hl : w.cachedDocuments.lookup script.id with _ | doc
  · simp [hl, List.lookup_cons]
  · simp [hl]

/-- C10: a failed `reload` assigns `flags` wholesale to
`MissingFromFilesystem`, so a previously set `Modified` flag is cleared
even though the in-memory content still differs from what was last
persisted (it is left as it was). -/
theorem reload_absent_file_clears_modified (s : Script) (fs : FS) (p : String)
    (hfull : s.fullname = some p) (habs : fs.getFile p = none)
    (hmod : s.flags &&& Script.Modified ≠ 0) :
    ∃ s1, Script.reload s fs = some (s1, false) ∧
      s1.flags = Script.MissingFromFilesystem ∧
      s1.flags &&& Script.Modified = 0 ∧
      s1._script = s._script := by
  refine ⟨{ s with flags := Script.MissingFromFilesystem }, ?_, rfl, ?_, rfl⟩
  · simp [Script.reload, hfull, habs]
  · show (2 : Nat) &&& 1 = 0
    decide

/-- C10 witness: a modified script whose file is gone. -/
theorem reload_absent_file_clears_modified_witness :
    (⟨0, "2", "x.py", some "python_script_library/x.py", 1⟩ : Script).fullname =
      some "python_script_library/x.py" ∧
    FS.getFile ⟨true, []⟩ "python_script_library/x.py" = none ∧
    (⟨0, "2", "x.py", some "python_script_library/x.py", 1⟩ : Script).flags &&&
      Script.Modified ≠ 0 ∧
    (∃ s1,
      Script.reload ⟨0, "2", "x.py", some "python_script_library/x.py", 1⟩ ⟨true, []⟩ =
        some (s1, false) ∧
      s1.flags = Script.MissingFromFilesystem ∧
      s1.flags &&& Script.Modified = 0 ∧
      s1._script = "2") :=
  ⟨rfl, rfl, by decide,
    reload_absent_file_clears_modified _ _ "python_script_library/x.py" rfl rfl (by decide)⟩

/-- Lemma: `addScript` with default arguments on a widget whose list is empty:
the resolver finds no collision, and a fresh scratch script carrying the
editor text is appended without touching the filesystem. -/
theorem addScript_empty (w : Widget) (fs : FS) (hw : w.libraryList = []) :
    addScript w none DEFAULT_FILENAME fs =
      some ({ w with
                libraryList := [⟨w.nextScriptId, w.editorText, "scratch.py", none, 2⟩],
                nextScriptId := w.nextScriptId + 1 }, fs) := by
  unfold addScript
  rw [hw]
  rfl

/-- What the tail of `removeScript` does: keeps the (already updated) list
when non-empty, else appends the fresh scratch script; always selects
`max(index - 1, 0)` and passes the filesystem and events through. -/
theorem removeScript_finish_spec (w : Widget) (fs : FS) (evs : List ScriptEvent) (index : Nat)
    (w1 : Widget) (fs1 : FS) (evs1 : List ScriptEvent)
    (h : removeScript_finish w fs evs index = some (.ok w1 fs1 evs1)) :
    w1.selectedRow = max (index - 1) 0 ∧ fs1 = fs ∧ evs1 = evs ∧
    (w.libraryList = [] →
      w1.libraryList = [⟨w.nextScriptId, w.editorText, "scratch.py", none, 2⟩]) ∧
    (w.libraryList ≠ [] → w1.libraryList = w.libraryList) := by
  unfold removeScript_finish at h
  split at h
  · rename_i hlen
    have hnil : w.libraryList = [] := List.length_eq_zero.mp hlen
    rw [addScript_empty w fs hnil] at h
    simp only [Option.some.injEq, RemoveResult.ok.injEq] at h
    obtain ⟨hw1, hfs1, hevs1⟩ := h
    subst hw1 hfs1 hevs1
    exact ⟨rfl, rfl, rfl, fun _ => rfl, fun hne => absurd hnil hne⟩
  · rename_i hlen
    simp only [Option.some.injEq, RemoveResult.ok.injEq] at h
    obtain ⟨hw1, hfs1, hevs1⟩ := h
    subst hw1 hfs1 hevs1
    refine ⟨rfl, rfl, rfl, fun hnil => ?_, fun _ => rfl⟩
    exact absurd (by rw [hnil]; rfl) hlen

/-- C6 (amended): removing the script at a valid index, when the method
completes without raising (`os.remove` raises when the backing file of a
non-missing script is already gone), never leaves the collection empty:
when the last entity is removed a fresh Script is auto-created — its
content is the current editor text, so it is blank exactly when the
editor is blank — and selection moves to `max(index - 1, 0)`. -/
theorem removeScript_never_empty (w : Widget) (fs : FS) (index : Nat)
    (w1 : Widget) (fs1 : FS) (evs : List ScriptEvent)
    (h : removeScript w fs index = some (.ok w1 fs1 evs)) :
    w1.libraryList ≠ [] ∧
    w1.selectedRow = max (index - 1) 0 ∧
    (w.libraryList.length = 1 →
      w1.libraryList = [⟨w.nextScriptId, w.editorText, "scratch.py", none, 2⟩]) := by
  unfold removeScript at h
  split at h
  · cases h
  · rename_i script hidx
    have hvalid : index < w.libraryList.length := by
      rcases List.getElem?_eq_some.mp hidx with ⟨hlt, _⟩
      exact hlt
    have hkey : ∀ fsx evsx,
        removeScript_finish { w with libraryList := w.libraryList.eraseIdx index } fsx evsx
            index = some (.ok w1 fs1 evs) →
        w1.libraryList ≠ [] ∧
        w1.selectedRow = max (index - 1) 0 ∧
        (w.libraryList.length = 1 →
          w1.libraryList = [⟨w.nextScriptId, w.editorText, "scratch.py", none, 2⟩]) := by
      intro fsx evsx hfin
      obtain ⟨hsel, _, _, hempty, hnonempty⟩ :=
        removeScript_finish_spec _ fsx evsx index w1 fs1 evs hfin
      refine ⟨?_, hsel, ?_⟩
      · by_cases hnil : w.libraryList.eraseIdx index = []
        · rw [hempty hnil]
          exact List.cons_ne_nil _ _
        · rw [hnonempty hnil]
          exact hnil
      · intro hone
        have hnil : w.libraryList.eraseIdx index = [] := by
          apply List.length_eq_zero.mp
          rw [List.length_eraseIdx, if_pos hvalid, hone]
        exact hempty hnil
    split at h
    · split at h
      · exact hkey _ _ h
      · simp at h
    · exact hkey _ _ h

/-- C6 counterexample: removing the only (missing-flagged) script while the
editor holds `"x"` auto-creates a script whose content is `"x"`, not a
blank one. -/
theorem removeScript_fresh_not_blank_cex :
    removeScript ⟨[⟨0, "s", "a.py", none, 2⟩], [], "x", 5, 1, 0⟩ ⟨true, []⟩ 0 =
      some (.ok ⟨[⟨1, "x", "scratch.py", none, 2⟩], [], "x", 0, 2, 0⟩ ⟨true, []⟩ []) ∧
    ("x" : String) ≠ "" :=
  ⟨rfl, by decide⟩

/-- C6 witness: the counterexample state run through the amended theorem. -/
theorem removeScript_never_empty_witness :
    removeScript ⟨[⟨0, "s", "a.py", none, 2⟩], [], "x", 5, 1, 0⟩ ⟨true, []⟩ 0 =
      some (.ok ⟨[⟨1, "x", "scratch.py", none, 2⟩], [], "x", 0, 2, 0⟩ ⟨true, []⟩ []) ∧
    ((⟨[⟨1, "x", "scratch.py", none, 2⟩], [], "x", 0, 2, 0⟩ : Widget).libraryList ≠ [] ∧
      (⟨[⟨1, "x", "scratch.py", none, 2⟩], [], "x", 0, 2, 0⟩ : Widget).selectedRow =
        max (0 - 1) 0 ∧
      ((⟨[⟨0, "s", "a.py", none, 2⟩], [], "x", 5, 1, 0⟩ : Widget).libraryList.length = 1 →
        (⟨[⟨1, "x", "scratch.py", none, 2⟩], [], "x", 0, 2, 0⟩ : Widget).libraryList =
          [⟨1, "x", "scratch.py", none, 2⟩])) :=
  ⟨rfl,
    removeScript_never_empty ⟨[⟨0, "s", "a.py", none, 2⟩], [], "x", 5, 1, 0⟩ ⟨true, []⟩ 0
      ⟨[⟨1, "x", "scratch.py", none, 2⟩], [], "x", 0, 2, 0⟩ ⟨true, []⟩ [] rfl⟩

/-- C7: on a Removed event for a filename present in the collection, the
matching script is kept and merely flagged missing when it has a cached
document; with no cached document it is dropped from the list entirely,
and when the list thereby empties a fresh script is appended and row 0
selected. -/
theorem handleScriptRemoved_spec (w : Widget) (fs : FS) (filename : String) (script : Script)
    (hfind : w.libraryList.find? (fun s => s._filename = filename) = some script) :
    ((w.cachedDocuments.lookup script.id).isSome = true →
      _handleScriptRemoved w fs filename =
        some ({ w with libraryList := markMissingById w.libraryList script.id }, fs) ∧
      (markMissingById w.libraryList script.id).length = w.libraryList.length ∧
      ∃ s1, s1 ∈ markMissingById w.libraryList script.id ∧ s1.id = script.id ∧
        s1.flags &&& Script.MissingFromFilesystem ≠ 0 ∧
        s1._script = script._script ∧ s1._filename = script._filename) ∧
    ((w.cachedDocuments.lookup script.id).isSome = false →
      (removeFirstById w.libraryList script.id ≠ [] →
        _handleScriptRemoved w fs filename =
          some ({ w with libraryList := removeFirstById w.libraryList script.id }, fs)) ∧
      (removeFirstById w.libraryList script.id = [] →
        _handleScriptRemoved w fs filename =
          some ({ w with
                    libraryList := [⟨w.nextScriptId, w.editorText, "scratch.py", none, 2⟩],
                    selectedRow := 0,
                    nextScriptId := w.nextScriptId + 1 }, fs))) := by
  constructor
  · intro hdoc
    refine ⟨?_, by simp [markMissingById], ?_⟩
    · unfold _handleScriptRemoved
      rw [hfind]
      dsimp only
      rw [hdoc]
      rfl
    · refine ⟨{ script with flags := script.flags ||| Script.MissingFromFilesystem },
        ?_, rfl, ?_, rfl, rfl⟩
      · unfold markMissingById
        exact List.mem_map.mpr
          ⟨script, List.mem_of_find?_eq_some hfind, by simp⟩
      · show (script.flags ||| 2) &&& 2 ≠ 0
        rw [or_two_and_two]
        decide
  · intro hdoc
    have hred : ∀ r : Option (Widget × FS),
        (if (removeFirstById w.libraryList script.id).length = 0 then
          (match addScript { w with libraryList := removeFirstById w.libraryList script.id }
              none DEFAULT_FILENAME fs with
            | none => none
            | some (w2, fs1) => some ({ w2 with selectedRow := 0 }, fs1)) else
          some ({ w with libraryList := removeFirstById w.libraryList script.id }, fs)) = r →
        _handleScriptRemoved w fs filename = r := by
      intro r hr
      rw [← hr]
      unfold _handleScriptRemoved
      rw [hfind]
      dsimp only
      rw [hdoc]
      rfl
    constructor
    · intro hne
      apply hred
      rw [if_neg (by simpa [List.length_eq_zero] using hne)]
    · intro hnil
      apply hred
      rw [if_pos (by simp [hnil])]
      rw [addScript_empty { w with libraryList := removeFirstById w.libraryList script.id }
        fs (by simpa using hnil)]

/-- C7 witness: a one-script widget with no cached document; both branch
premises of the theorem are decidable at this input. -/
theorem handleScriptRemoved_spec_witness :
    (⟨[⟨0, "s", "a.py", none, 0⟩], [], "e", 0, 1, 0⟩ : Widget).libraryList.find?
        (fun s => s._filename = "a.py") = some ⟨0, "s", "a.py", none, 0⟩ ∧
    ((((⟨[⟨0, "s", "a.py", none, 0⟩], [], "e", 0, 1, 0⟩ : Widget)).cachedDocuments.lookup
          (0 : Nat)).isSome = true →
      _handleScriptRemoved ⟨[⟨0, "s", "a.py", none, 0⟩], [], "e", 0, 1, 0⟩ ⟨true, []⟩
          "a.py" =
        some (⟨markMissingById [⟨0, "s", "a.py", none, 0⟩] 0, [], "e", 0, 1, 0⟩, ⟨true, []⟩) ∧
      (markMissingById [⟨0, "s", "a.py", none, 0⟩] 0).length =
        (⟨[⟨0, "s", "a.py", none, 0⟩], [], "e", 0, 1, 0⟩ : Widget).libraryList.length ∧
      ∃ s1, s1 ∈ markMissingById [⟨0, "s", "a.py", none, 0⟩] 0 ∧ s1.id = 0 ∧
        s1.flags &&& Script.MissingFromFilesystem ≠ 0 ∧
        s1._script = "s" ∧ s1._filename = "a.py") ∧
    ((((⟨[⟨0, "s", "a.py", none, 0⟩], [], "e", 0, 1, 0⟩ : Widget)).cachedDocuments.lookup
          (0 : Nat)).isSome = false →
      (removeFirstById [⟨0, "s", "a.py", none, 0⟩] 0 ≠ [] →
        _handleScriptRemoved ⟨[⟨0, "s", "a.py", none, 0⟩], [], "e", 0, 1, 0⟩ ⟨true, []⟩
            "a.py" =
          some (⟨removeFirstById [⟨0, "s", "a.py", none, 0⟩] 0, [], "e", 0, 1, 0⟩,
            ⟨true, []⟩)) ∧
      (removeFirstById [⟨0, "s", "a.py", none, 0⟩] 0 = [] →
        _handleScriptRemoved ⟨[⟨0, "s", "a.py", none, 0⟩], [], "e", 0, 1, 0⟩ ⟨true, []⟩
            "a.py" =
          some (⟨[⟨1, "e", "scratch.py", none, 2⟩], [], "e", 0, 2, 0⟩, ⟨true, []⟩))) :=
  ⟨rfl,
    handleScriptRemoved_spec ⟨[⟨0, "s", "a.py", none, 0⟩], [], "e", 0, 1, 0⟩ ⟨true, []⟩
      "a.py" ⟨0, "s", "a.py", none, 0⟩ rfl⟩

end OWPythonScript
